import Mathlib

/-!
Verification of `source/validate_logicals.cpp` (SPIR-V logicals validation
pass, `LogicalsPass`).  The pass itself is embedded faithfully from the
source; the external type-store queries (`ValidationState_t` members such as
`IsBoolScalarType`, `GetDimension`, `GetBitWidth`, `GetTypeId`, `FindDef`
and the feature flags) are not part of the visible source and are modelled
from the spec's data model (§3, §6).
-/

namespace SpirvLogicals

/-- Modelled from the spec: a `TypeDescriptor` as resolved by the external
type store — bool, int (with bit width and signedness), float (with bit
width), a vector of a component type with a lane count, a pointer (with a
storage-class tag and a pointee type id), or some other/unresolved type. -/
inductive TypeDesc where
  | boolT : TypeDesc
  | intT (width : Nat) (signed : Bool) : TypeDesc
  | floatT (width : Nat) : TypeDesc
  | vecT (comp : TypeDesc) (lanes : Nat) : TypeDesc
  | ptrT (storage : Nat) (pointee : Nat) : TypeDesc
  | otherT : TypeDesc
deriving DecidableEq, Repr

/-- Modelled from the spec: the read-only view of `ValidationState_t` used by
the pass — a map from value ids to their type ids (`GetTypeId`, 0 meaning
"no type"), a map from type ids to their descriptors (`FindDef`), and the two
variable-pointer capability flags of `features()`. -/
structure ValidationState where
  typeOf : Nat → Nat
  findDef : Nat → TypeDesc
  variable_pointers : Bool
  variable_pointers_storage_buffer : Bool

/-- Modelled from the spec: `IsBoolScalarType` — the type id resolves to a
scalar boolean type. -/
def ValidationState.IsBoolScalarType (s : ValidationState) (t : Nat) : Bool :=
  match s.findDef t with
  | .boolT => true
  | _ => false

/-- Modelled from the spec: `IsBoolVectorType` — the type id resolves to a
vector whose component type is boolean. -/
def ValidationState.IsBoolVectorType (s : ValidationState) (t : Nat) : Bool :=
  match s.findDef t with
  | .vecT .boolT _ => true
  | _ => false

/-- Modelled from the spec: `IsIntScalarType` — the type id resolves to a
scalar integer type (signed or unsigned). -/
def ValidationState.IsIntScalarType (s : ValidationState) (t : Nat) : Bool :=
  match s.findDef t with
  | .intT _ _ => true
  | _ => false

/-- Modelled from the spec: `IsIntVectorType` — the type id resolves to a
vector whose component type is an integer type. -/
def ValidationState.IsIntVectorType (s : ValidationState) (t : Nat) : Bool :=
  match s.findDef t with
  | .vecT (.intT _ _) _ => true
  | _ => false

/-- Modelled from the spec: `IsFloatScalarType` — the type id resolves to a
scalar float type. -/
def ValidationState.IsFloatScalarType (s : ValidationState) (t : Nat) : Bool :=
  match s.findDef t with
  | .floatT _ => true
  | _ => false

/-- Modelled from the spec: `IsFloatVectorType` — the type id resolves to a
vector whose component type is a float type. -/
def ValidationState.IsFloatVectorType (s : ValidationState) (t : Nat) : Bool :=
  match s.findDef t with
  | .vecT (.floatT _) _ => true
  | _ => false

/-- Lane count of a descriptor: 1 for the scalar numeric/boolean types, the
lane count for vectors, 0 otherwise. -/
def TypeDesc.dimension : TypeDesc → Nat
  | .boolT => 1
  | .intT _ _ => 1
  | .floatT _ => 1
  | .vecT _ n => n
  | _ => 0

/-- Modelled from the spec: `GetDimension` — the lane count of the type named
by a type id (scalar = implicit lane count 1). -/
def ValidationState.GetDimension (s : ValidationState) (t : Nat) : Nat :=
  (s.findDef t).dimension

/-- Component bit width of a descriptor: the declared width for int/float,
1 for bool, the component's width for vectors, 0 otherwise. -/
def TypeDesc.bitWidth : TypeDesc → Nat
  | .boolT => 1
  | .intT w _ => w
  | .floatT w => w
  | .vecT c _ => c.bitWidth
  | _ => 0

/-- Modelled from the spec: `GetBitWidth` — the component bit width of the
type named by a type id. -/
def ValidationState.GetBitWidth (s : ValidationState) (t : Nat) : Nat :=
  (s.findDef t).bitWidth

/-- The opcodes relevant to this pass, plus representative opcodes of other
passes (which `LogicalsPass` must accept unconditionally). -/
inductive SpvOp where
  | OpAny | OpAll
  | OpIsNan | OpIsInf | OpIsFinite | OpIsNormal | OpSignBitSet
  | OpFOrdEqual | OpFUnordEqual | OpFOrdNotEqual | OpFUnordNotEqual
  | OpFOrdLessThan | OpFUnordLessThan | OpFOrdGreaterThan
  | OpFUnordGreaterThan | OpFOrdLessThanEqual | OpFUnordLessThanEqual
  | OpFOrdGreaterThanEqual | OpFUnordGreaterThanEqual
  | OpLessOrGreater | OpOrdered | OpUnordered
  | OpLogicalEqual | OpLogicalNotEqual | OpLogicalOr | OpLogicalAnd
  | OpLogicalNot
  | OpSelect
  | OpIEqual | OpINotEqual
  | OpUGreaterThan | OpUGreaterThanEqual | OpULessThan | OpULessThanEqual
  | OpSGreaterThan | OpSGreaterThanEqual | OpSLessThan | OpSLessThanEqual
  | OpNop | OpUndef | OpIAdd | OpFAdd | OpLoad | OpStore | OpBranch
deriving DecidableEq, Repr

/-- A decoded instruction: its opcode, its result type id (`inst->type_id`,
0 when absent), and its operand words, each operand occupying one word
(operand index 0 is the result type word, 1 the result id, 2 onward the
actual operands, as in the SPIR-V encoding). -/
structure Instr where
  opcode : SpvOp
  type_id : Nat
  operands : List Nat

/-- `GetOperandWord`: the single backing word of the operand at the given
index. -/
def GetOperandWord (inst : Instr) (operand_index : Nat) : Nat :=
  inst.operands.getD operand_index 0

/-- `GetOperandTypeId`: the type id of the instruction operand at the given
index, resolved through the state's `GetTypeId`. -/
def GetOperandTypeId (s : ValidationState) (inst : Instr)
    (operand_index : Nat) : Nat :=
  s.typeOf (GetOperandWord inst operand_index)

/-- One constructor per distinct diagnostic message emitted by the pass. -/
inductive Diag where
  | boolScalarResult          -- "Expected bool scalar type as Result Type"
  | operandVectorBool         -- "Expected operand to be vector bool"
  | boolScalarOrVectorResult  -- "Expected bool scalar or vector type as Result Type"
  | operandFloat              -- "Expected operand to be scalar or vector float"
  | dimResultOperand          -- "Expected vector sizes of Result Type and the operand to be equal"
  | operandsFloat             -- "Expected operands to be scalar or vector float"
  | dimResultOperands         -- "Expected vector sizes of Result Type and the operands to be equal"
  | sameOperandTypes          -- "Expected left and right operands to have the same type"
  | operandsOfResultType      -- "Expected both operands to be of Result Type"
  | operandOfResultType       -- "Expected operand to be of Result Type"
  | selectNeedsVarPtrCap      -- "Using pointers with OpSelect requires capability VariablePointers or VariablePointersStorageBuffer"
  | scalarOrVectorResult      -- "Expected scalar or vector type as Result Type"
  | boolCondition             -- "Expected bool scalar or vector type as condition"
  | dimResultCondition        -- "Expected vector sizes of Result Type and the condition to be equal"
  | objectsOfResultType       -- "Expected both objects to be of Result Type"
  | operandsInt               -- "Expected operands to be scalar or vector int"
  | sameBitWidth              -- "Expected both operands to have the same component bit width"
deriving DecidableEq, Repr

/-- The verdict of the pass: `SPV_SUCCESS`, or `SPV_ERROR_INVALID_DATA` with
a specific diagnostic. -/
inductive SpvResult where
  | success : SpvResult
  | error (d : Diag) : SpvResult
deriving DecidableEq, Repr

/-- Case body for `SpvOpAny` / `SpvOpAll` (boolean reduction). -/
def anyAllChecks (s : ValidationState) (inst : Instr) : SpvResult :=
  let result_type := inst.type_id
  if !s.IsBoolScalarType result_type then
    .error .boolScalarResult
  else
    let vector_type := GetOperandTypeId s inst 2
    if vector_type == 0 || !s.IsBoolVectorType vector_type then
      .error .operandVectorBool
    else
      .success

/-- Case body for the float-classification opcodes (`OpIsNan` … `OpSignBitSet`). -/
def classifyChecks (s : ValidationState) (inst : Instr) : SpvResult :=
  let result_type := inst.type_id
  if !s.IsBoolScalarType result_type && !s.IsBoolVectorType result_type then
    .error .boolScalarOrVectorResult
  else
    let operand_type := GetOperandTypeId s inst 2
    if operand_type == 0 ||
        (!s.IsFloatScalarType operand_type &&
         !s.IsFloatVectorType operand_type) then
      .error .operandFloat
    else if s.GetDimension result_type != s.GetDimension operand_type then
      .error .dimResultOperand
    else
      .success

/-- Case body for the floating-comparison opcodes. -/
def floatCompareChecks (s : ValidationState) (inst : Instr) : SpvResult :=
  let result_type := inst.type_id
  if !s.IsBoolScalarType result_type && !s.IsBoolVectorType result_type then
    .error .boolScalarOrVectorResult
  else
    let left_operand_type := GetOperandTypeId s inst 2
    if left_operand_type == 0 ||
        (!s.IsFloatScalarType left_operand_type &&
         !s.IsFloatVectorType left_operand_type) then
      .error .operandsFloat
    else if s.GetDimension result_type !=
        s.GetDimension left_operand_type then
      .error .dimResultOperands
    else if left_operand_type != GetOperandTypeId s inst 3 then
      .error .sameOperandTypes
    else
      .success

/-- Case body for `OpLogicalEqual` / `OpLogicalNotEqual` / `OpLogicalOr` /
`OpLogicalAnd`. -/
def logicalBinChecks (s : ValidationState) (inst : Instr) : SpvResult :=
  let result_type := inst.type_id
  if !s.IsBoolScalarType result_type && !s.IsBoolVectorType result_type then
    .error .boolScalarOrVectorResult
  else if result_type != GetOperandTypeId s inst 2 ||
      result_type != GetOperandTypeId s inst 3 then
    .error .operandsOfResultType
  else
    .success

/-- Case body for `OpLogicalNot`. -/
def logicalNotChecks (s : ValidationState) (inst : Instr) : SpvResult :=
  let result_type := inst.type_id
  if !s.IsBoolScalarType result_type && !s.IsBoolVectorType result_type then
    .error .boolScalarOrVectorResult
  else if result_type != GetOperandTypeId s inst 2 then
    .error .operandOfResultType
  else
    .success

/-- The operand checks of `OpSelect` performed after the result-type switch
has established `dimension`. -/
def selectOperandChecks (s : ValidationState) (inst : Instr)
    (dimension : Nat) : SpvResult :=
  let result_type := inst.type_id
  let condition_type := GetOperandTypeId s inst 2
  let left_type := GetOperandTypeId s inst 3
  let right_type := GetOperandTypeId s inst 4
  if condition_type == 0 ||
      (!s.IsBoolScalarType condition_type &&
       !s.IsBoolVectorType condition_type) then
    .error .boolCondition
  else if s.GetDimension condition_type != dimension then
    .error .dimResultCondition
  else if result_type != left_type || result_type != right_type then
    .error .objectsOfResultType
  else
    .success

/-- Case body for `OpSelect`: switch on the result type's defining opcode to
establish the implied dimension (gating pointers on the variable-pointer
capabilities), then run the operand checks. -/
def selectChecks (s : ValidationState) (inst : Instr) : SpvResult :=
  let result_type := inst.type_id
  match s.findDef result_type with
  | .ptrT _ _ =>
    if !s.variable_pointers && !s.variable_pointers_storage_buffer then
      .error .selectNeedsVarPtrCap
    else
      selectOperandChecks s inst 1
  | .vecT _ n => selectOperandChecks s inst n
  | .boolT => selectOperandChecks s inst 1
  | .intT _ _ => selectOperandChecks s inst 1
  | .floatT _ => selectOperandChecks s inst 1
  | .otherT => .error .scalarOrVectorResult

/-- Case body for the integer-comparison opcodes. -/
def intCompareChecks (s : ValidationState) (inst : Instr) : SpvResult :=
  let result_type := inst.type_id
  if !s.IsBoolScalarType result_type && !s.IsBoolVectorType result_type then
    .error .boolScalarOrVectorResult
  else
    let left_type := GetOperandTypeId s inst 2
    let right_type := GetOperandTypeId s inst 3
    if left_type == 0 ||
        (!s.IsIntScalarType left_type && !s.IsIntVectorType left_type) then
      .error .operandsInt
    else if s.GetDimension result_type != s.GetDimension left_type then
      .error .dimResultOperands
    else if right_type == 0 ||
        (!s.IsIntScalarType right_type && !s.IsIntVectorType right_type) then
      .error .operandsInt
    else if s.GetDimension result_type != s.GetDimension right_type then
      .error .dimResultOperands
    else if s.GetBitWidth left_type != s.GetBitWidth right_type then
      .error .sameBitWidth
    else
      .success

/-- `LogicalsPass`: validates correctness of logical instructions
(`source/validate_logicals.cpp`, lines 48–282). -/
def LogicalsPass (s : ValidationState) (inst : Instr) : SpvResult :=
  match inst.opcode with
  | .OpAny | .OpAll => anyAllChecks s inst
  | .OpIsNan | .OpIsInf | .OpIsFinite | .OpIsNormal | .OpSignBitSet =>
    classifyChecks s inst
  | .OpFOrdEqual | .OpFUnordEqual | .OpFOrdNotEqual | .OpFUnordNotEqual
  | .OpFOrdLessThan | .OpFUnordLessThan | .OpFOrdGreaterThan
  | .OpFUnordGreaterThan | .OpFOrdLessThanEqual | .OpFUnordLessThanEqual
  | .OpFOrdGreaterThanEqual | .OpFUnordGreaterThanEqual
  | .OpLessOrGreater | .OpOrdered | .OpUnordered =>
    floatCompareChecks s inst
  | .OpLogicalEqual | .OpLogicalNotEqual | .OpLogicalOr | .OpLogicalAnd =>
    logicalBinChecks s inst
  | .OpLogicalNot => logicalNotChecks s inst
  | .OpSelect => selectChecks s inst
  | .OpIEqual | .OpINotEqual
  | .OpUGreaterThan | .OpUGreaterThanEqual | .OpULessThan
  | .OpULessThanEqual | .OpSGreaterThan | .OpSGreaterThanEqual
  | .OpSLessThan | .OpSLessThanEqual =>
    intCompareChecks s inst
  | _ => .success

/-- The integer-comparison opcode family. -/
def isIntCompare : SpvOp → Bool
  | .OpIEqual | .OpINotEqual
  | .OpUGreaterThan | .OpUGreaterThanEqual | .OpULessThan
  | .OpULessThanEqual | .OpSGreaterThan | .OpSGreaterThanEqual
  | .OpSLessThan | .OpSLessThanEqual => true
  | _ => false

/-- The floating-comparison opcode family. -/
def isFloatCompare : SpvOp → Bool
  | .OpFOrdEqual | .OpFUnordEqual | .OpFOrdNotEqual | .OpFUnordNotEqual
  | .OpFOrdLessThan | .OpFUnordLessThan | .OpFOrdGreaterThan
  | .OpFUnordGreaterThan | .OpFOrdLessThanEqual | .OpFUnordLessThanEqual
  | .OpFOrdGreaterThanEqual | .OpFUnordGreaterThanEqual
  | .OpLessOrGreater | .OpOrdered | .OpUnordered => true
  | _ => false

/-- The opcodes handled by one of the pass's switch cases. -/
def handledOp : SpvOp → Bool
  | .OpAny | .OpAll
  | .OpIsNan | .OpIsInf | .OpIsFinite | .OpIsNormal | .OpSignBitSet
  | .OpFOrdEqual | .OpFUnordEqual | .OpFOrdNotEqual | .OpFUnordNotEqual
  | .OpFOrdLessThan | .OpFUnordLessThan | .OpFOrdGreaterThan
  | .OpFUnordGreaterThan | .OpFOrdLessThanEqual | .OpFUnordLessThanEqual
  | .OpFOrdGreaterThanEqual | .OpFUnordGreaterThanEqual
  | .OpLessOrGreater | .OpOrdered | .OpUnordered
  | .OpLogicalEqual | .OpLogicalNotEqual | .OpLogicalOr | .OpLogicalAnd
  | .OpLogicalNot
  | .OpSelect
  | .OpIEqual | .OpINotEqual
  | .OpUGreaterThan | .OpUGreaterThanEqual | .OpULessThan
  | .OpULessThanEqual | .OpSGreaterThan | .OpSGreaterThanEqual
  | .OpSLessThan | .OpSLessThanEqual => true
  | _ => false

/-- The operand indices whose type ids a handled opcode requires the pass to
inspect (index 2 onward; indices 0 and 1 are the result type and result id
words). -/
def requiredOperands : SpvOp → List Nat
  | .OpAny | .OpAll
  | .OpIsNan | .OpIsInf | .OpIsFinite | .OpIsNormal | .OpSignBitSet
  | .OpLogicalNot => [2]
  | .OpFOrdEqual | .OpFUnordEqual | .OpFOrdNotEqual | .OpFUnordNotEqual
  | .OpFOrdLessThan | .OpFUnordLessThan | .OpFOrdGreaterThan
  | .OpFUnordGreaterThan | .OpFOrdLessThanEqual | .OpFUnordLessThanEqual
  | .OpFOrdGreaterThanEqual | .OpFUnordGreaterThanEqual
  | .OpLessOrGreater | .OpOrdered | .OpUnordered
  | .OpLogicalEqual | .OpLogicalNotEqual | .OpLogicalOr | .OpLogicalAnd
  | .OpIEqual | .OpINotEqual
  | .OpUGreaterThan | .OpUGreaterThanEqual | .OpULessThan
  | .OpULessThanEqual | .OpSGreaterThan | .OpSGreaterThanEqual
  | .OpSLessThan | .OpSLessThanEqual => [2, 3]
  | .OpSelect => [2, 3, 4]
  | _ => []

/-- Whether a descriptor is a pointer type. -/
def TypeDesc.isPtr : TypeDesc → Bool
  | .ptrT _ _ => true
  | _ => false

/-- The lane count a `Select` result type implies for the condition operand:
1 for scalar and pointer result types, the lane count for vector result
types, none for types `Select` does not accept. -/
def selectResultDim : TypeDesc → Option Nat
  | .boolT => some 1
  | .intT _ _ => some 1
  | .floatT _ => some 1
  | .vecT _ n => some n
  | .ptrT _ _ => some 1
  | .otherT => none

/-- A module type store is well formed when the sentinel type id 0 names no
type. -/
def ValidationState.WF (s : ValidationState) : Prop :=
  s.findDef 0 = .otherT

/-- A small concrete type store used to instantiate theorems: type ids 1–14
name representative bool/int/float/vector/pointer types, value ids resolve
to themselves as type ids, and both variable-pointer capabilities can be
toggled through the two sample states below. -/
def sampleDef : Nat → TypeDesc
  | 1 => .boolT
  | 2 => .vecT .boolT 2
  | 3 => .intT 32 true
  | 4 => .vecT (.intT 32 true) 2
  | 5 => .floatT 32
  | 6 => .vecT (.floatT 32) 2
  | 7 => .ptrT 0 3
  | 8 => .intT 16 false
  | 9 => .vecT (.intT 16 false) 8
  | 10 => .vecT (.intT 32 true) 8
  | 11 => .vecT (.floatT 32) 4
  | 12 => .vecT (.intT 32 true) 3
  | 13 => .vecT .boolT 3
  | 14 => .intT 32 false
  | 15 => .vecT .boolT 8
  | _ => .otherT

/-- Sample state with the variable-pointers capability enabled. -/
def sampleState : ValidationState :=
  { typeOf := fun v => v
    findDef := sampleDef
    variable_pointers := true
    variable_pointers_storage_buffer := false }

/-- Sample state with neither variable-pointer capability enabled. -/
def sampleStateNoCaps : ValidationState :=
  { typeOf := fun v => v
    findDef := sampleDef
    variable_pointers := false
    variable_pointers_storage_buffer := false }

/-- Signedness normalization of a descriptor: set every integer component's
signedness flag to `b`, leaving everything else unchanged. -/
def TypeDesc.withSign (b : Bool) : TypeDesc → TypeDesc
  | .intT w _ => .intT w b
  | .vecT c n => .vecT (c.withSign b) n
  | t => t

/-- The same type store with every integer type's signedness set to `b`. -/
def ValidationState.withSign (s : ValidationState) (b : Bool) :
    ValidationState :=
  { s with findDef := fun t => (s.findDef t).withSign b }

/-- The driver's view of the pass over a stream of instructions: one
independent invocation per instruction, in module order. -/
def runPass (s : ValidationState) (insts : List Instr) : List SpvResult :=
  insts.map (LogicalsPass s)

section ZeroLemmas

variable {s : ValidationState}

theorem isBoolScalar_zero (h0 : s.WF) : s.IsBoolScalarType 0 = false := by
  simp [ValidationState.IsBoolScalarType, show s.findDef 0 = .otherT from h0]

theorem isBoolVector_zero (h0 : s.WF) : s.IsBoolVectorType 0 = false := by
  simp [ValidationState.IsBoolVectorType, show s.findDef 0 = .otherT from h0]

theorem isIntScalar_zero (h0 : s.WF) : s.IsIntScalarType 0 = false := by
  simp [ValidationState.IsIntScalarType, show s.findDef 0 = .otherT from h0]

theorem isIntVector_zero (h0 : s.WF) : s.IsIntVectorType 0 = false := by
  simp [ValidationState.IsIntVectorType, show s.findDef 0 = .otherT from h0]

theorem isFloatScalar_zero (h0 : s.WF) : s.IsFloatScalarType 0 = false := by
  simp [ValidationState.IsFloatScalarType, show s.findDef 0 = .otherT from h0]

theorem isFloatVector_zero (h0 : s.WF) : s.IsFloatVectorType 0 = false := by
  simp [ValidationState.IsFloatVectorType, show s.findDef 0 = .otherT from h0]

/-- In a well-formed store, the sentinel check and the boolean-kind check of
a condition operand collapse to the kind check alone. -/
theorem boolOperandCond (h0 : s.WF) (t : Nat) :
    (t == 0 || (!s.IsBoolScalarType t && !s.IsBoolVectorType t)) =
      (!s.IsBoolScalarType t && !s.IsBoolVectorType t) := by
  by_cases ht : t = 0
  · subst ht
    simp [isBoolScalar_zero h0, isBoolVector_zero h0]
  · simp [ht]

/-- In a well-formed store, the sentinel check and the integer-kind check of
an operand collapse to the kind check alone. -/
theorem intOperandCond (h0 : s.WF) (t : Nat) :
    (t == 0 || (!s.IsIntScalarType t && !s.IsIntVectorType t)) =
      (!s.IsIntScalarType t && !s.IsIntVectorType t) := by
  by_cases ht : t = 0
  · subst ht
    simp [isIntScalar_zero h0, isIntVector_zero h0]
  · simp [ht]

/-- In a well-formed store, the sentinel check and the float-kind check of an
operand collapse to the kind check alone. -/
theorem floatOperandCond (h0 : s.WF) (t : Nat) :
    (t == 0 || (!s.IsFloatScalarType t && !s.IsFloatVectorType t)) =
      (!s.IsFloatScalarType t && !s.IsFloatVectorType t) := by
  by_cases ht : t = 0
  · subst ht
    simp [isFloatScalar_zero h0, isFloatVector_zero h0]
  · simp [ht]

end ZeroLemmas

theorem sampleState_WF : sampleState.WF := rfl

theorem sampleStateNoCaps_WF : sampleStateNoCaps.WF := rfl

section DispatchLemmas

theorem logicalsPass_intCompare (s : ValidationState) (inst : Instr)
    (h : isIntCompare inst.opcode = true) :
    LogicalsPass s inst = intCompareChecks s inst := by
  cases hop : inst.opcode <;>
    simp [isIntCompare, hop] at h <;> simp [LogicalsPass, hop]

theorem logicalsPass_floatCompare (s : ValidationState) (inst : Instr)
    (h : isFloatCompare inst.opcode = true) :
    LogicalsPass s inst = floatCompareChecks s inst := by
  cases hop : inst.opcode <;>
    simp [isFloatCompare, hop] at h <;> simp [LogicalsPass, hop]

end DispatchLemmas

section SuccessIff

theorem anyAllChecks_success_iff (s : ValidationState) (inst : Instr)
    (h0 : s.WF) :
    anyAllChecks s inst = .success ↔
      s.IsBoolScalarType inst.type_id = true ∧
      s.IsBoolVectorType (GetOperandTypeId s inst 2) = true := by
  unfold anyAllChecks
  cases h1 : s.IsBoolScalarType inst.type_id <;> simp [h1]
  cases h2 : s.IsBoolVectorType (GetOperandTypeId s inst 2) <;> simp [h2]
  have hne : GetOperandTypeId s inst 2 ≠ 0 := by
    intro hz
    rw [hz, isBoolVector_zero h0] at h2
    exact Bool.false_ne_true h2
  simp [hne]

theorem floatCompareChecks_success_iff (s : ValidationState) (inst : Instr)
    (h0 : s.WF) :
    floatCompareChecks s inst = .success ↔
      (s.IsBoolScalarType inst.type_id ||
        s.IsBoolVectorType inst.type_id) = true ∧
      (s.IsFloatScalarType (GetOperandTypeId s inst 2) ||
        s.IsFloatVectorType (GetOperandTypeId s inst 2)) = true ∧
      s.GetDimension inst.type_id =
        s.GetDimension (GetOperandTypeId s inst 2) ∧
      GetOperandTypeId s inst 2 = GetOperandTypeId s inst 3 := by
  unfold floatCompareChecks
  simp only [floatOperandCond h0]
  cases h1 : s.IsBoolScalarType inst.type_id <;>
  cases h2 : s.IsBoolVectorType inst.type_id <;>
  cases h3 : s.IsFloatScalarType (GetOperandTypeId s inst 2) <;>
  cases h4 : s.IsFloatVectorType (GetOperandTypeId s inst 2) <;>
  by_cases h5 : s.GetDimension inst.type_id =
    s.GetDimension (GetOperandTypeId s inst 2) <;>
  by_cases h6 : GetOperandTypeId s inst 2 = GetOperandTypeId s inst 3 <;>
  simp [h1, h2, h3, h4, h5, h6, bne_iff_ne]

theorem intCompareChecks_success_iff (s : ValidationState) (inst : Instr)
    (h0 : s.WF) :
    intCompareChecks s inst = .success ↔
      (s.IsBoolScalarType inst.type_id ||
        s.IsBoolVectorType inst.type_id) = true ∧
      (s.IsIntScalarType (GetOperandTypeId s inst 2) ||
        s.IsIntVectorType (GetOperandTypeId s inst 2)) = true ∧
      s.GetDimension inst.type_id =
        s.GetDimension (GetOperandTypeId s inst 2) ∧
      (s.IsIntScalarType (GetOperandTypeId s inst 3) ||
        s.IsIntVectorType (GetOperandTypeId s inst 3)) = true ∧
      s.GetDimension inst.type_id =
        s.GetDimension (GetOperandTypeId s inst 3) ∧
      s.GetBitWidth (GetOperandTypeId s inst 2) =
        s.GetBitWidth (GetOperandTypeId s inst 3) := by
  unfold intCompareChecks
  simp only [intOperandCond h0]
  cases h1 : s.IsBoolScalarType inst.type_id <;>
  cases h2 : s.IsBoolVectorType inst.type_id <;>
  cases h3 : s.IsIntScalarType (GetOperandTypeId s inst 2) <;>
  cases h4 : s.IsIntVectorType (GetOperandTypeId s inst 2) <;>
  cases h6 : s.IsIntScalarType (GetOperandTypeId s inst 3) <;>
  cases h7 : s.IsIntVectorType (GetOperandTypeId s inst 3) <;>
  by_cases h5 : s.GetDimension inst.type_id =
    s.GetDimension (GetOperandTypeId s inst 2) <;>
  by_cases h8 : s.GetDimension inst.type_id =
    s.GetDimension (GetOperandTypeId s inst 3) <;>
  by_cases h9 : s.GetBitWidth (GetOperandTypeId s inst 2) =
    s.GetBitWidth (GetOperandTypeId s inst 3) <;>
  simp [h1, h2, h3, h4, h5, h6, h7, h8, h9, bne_iff_ne] <;>
  split <;> simp

theorem selectOperandChecks_success_iff (s : ValidationState) (inst : Instr)
    (d : Nat) (h0 : s.WF) :
    selectOperandChecks s inst d = .success ↔
      (s.IsBoolScalarType (GetOperandTypeId s inst 2) ||
        s.IsBoolVectorType (GetOperandTypeId s inst 2)) = true ∧
      s.GetDimension (GetOperandTypeId s inst 2) = d ∧
      inst.type_id = GetOperandTypeId s inst 3 ∧
      inst.type_id = GetOperandTypeId s inst 4 := by
  unfold selectOperandChecks
  simp only [boolOperandCond h0]
  cases h1 : s.IsBoolScalarType (GetOperandTypeId s inst 2) <;>
  cases h2 : s.IsBoolVectorType (GetOperandTypeId s inst 2) <;>
  by_cases h3 : s.GetDimension (GetOperandTypeId s inst 2) = d <;>
  by_cases h4 : inst.type_id = GetOperandTypeId s inst 3 <;>
  by_cases h5 : inst.type_id = GetOperandTypeId s inst 4 <;>
  simp [h1, h2, h3, h4, h5, bne_iff_ne]

end SuccessIff

section Helpers

theorem not_and_not_eq_false {a b : Bool} (h : (a || b) = true) :
    (!a && !b) = false := by
  cases a <;> cases b <;> simp_all

theorem ne_zero_of_bool_kind {s : ValidationState} {t : Nat} (h0 : s.WF)
    (h : (s.IsBoolScalarType t || s.IsBoolVectorType t) = true) : t ≠ 0 := by
  intro hz
  subst hz
  rw [isBoolScalar_zero h0, isBoolVector_zero h0] at h
  simp at h

theorem ne_zero_of_int_kind {s : ValidationState} {t : Nat} (h0 : s.WF)
    (h : (s.IsIntScalarType t || s.IsIntVectorType t) = true) : t ≠ 0 := by
  intro hz
  subst hz
  rw [isIntScalar_zero h0, isIntVector_zero h0] at h
  simp at h

theorem ne_zero_of_float_kind {s : ValidationState} {t : Nat} (h0 : s.WF)
    (h : (s.IsFloatScalarType t || s.IsFloatVectorType t) = true) : t ≠ 0 := by
  intro hz
  subst hz
  rw [isFloatScalar_zero h0, isFloatVector_zero h0] at h
  simp at h

theorem getDimension_of_boolScalar {s : ValidationState} {t : Nat}
    (h : s.IsBoolScalarType t = true) : s.GetDimension t = 1 := by
  unfold ValidationState.IsBoolScalarType at h
  unfold ValidationState.GetDimension
  cases hd : s.findDef t <;> rw [hd] at h <;>
    simp_all [TypeDesc.dimension]

theorem logicalsPass_select (s : ValidationState) (inst : Instr)
    (hop : inst.opcode = .OpSelect) :
    LogicalsPass s inst = selectChecks s inst := by
  simp [LogicalsPass, hop]

end Helpers

section WithSignLemmas

theorem withSign_dimension (b : Bool) (t : TypeDesc) :
    (t.withSign b).dimension = t.dimension := by
  cases t <;> simp [TypeDesc.withSign, TypeDesc.dimension]

theorem withSign_bitWidth (b : Bool) (t : TypeDesc) :
    (t.withSign b).bitWidth = t.bitWidth := by
  induction t <;> simp_all [TypeDesc.withSign, TypeDesc.bitWidth]

theorem findDef_withSign (s : ValidationState) (b : Bool) (t : Nat) :
    (s.withSign b).findDef t = (s.findDef t).withSign b := rfl

theorem isBoolScalar_withSign (s : ValidationState) (b : Bool) (t : Nat) :
    (s.withSign b).IsBoolScalarType t = s.IsBoolScalarType t := by
  unfold ValidationState.IsBoolScalarType
  rw [findDef_withSign]
  cases hd : s.findDef t <;> simp [TypeDesc.withSign]

theorem isBoolVector_withSign (s : ValidationState) (b : Bool) (t : Nat) :
    (s.withSign b).IsBoolVectorType t = s.IsBoolVectorType t := by
  unfold ValidationState.IsBoolVectorType
  rw [findDef_withSign]
  cases hd : s.findDef t <;> simp [TypeDesc.withSign]
  case vecT c n => cases c <;> simp [TypeDesc.withSign]

theorem isIntScalar_withSign (s : ValidationState) (b : Bool) (t : Nat) :
    (s.withSign b).IsIntScalarType t = s.IsIntScalarType t := by
  unfold ValidationState.IsIntScalarType
  rw [findDef_withSign]
  cases hd : s.findDef t <;> simp [TypeDesc.withSign]

theorem isIntVector_withSign (s : ValidationState) (b : Bool) (t : Nat) :
    (s.withSign b).IsIntVectorType t = s.IsIntVectorType t := by
  unfold ValidationState.IsIntVectorType
  rw [findDef_withSign]
  cases hd : s.findDef t <;> simp [TypeDesc.withSign]
  case vecT c n => cases c <;> simp [TypeDesc.withSign]

theorem getDimension_withSign (s : ValidationState) (b : Bool) (t : Nat) :
    (s.withSign b).GetDimension t = s.GetDimension t := by
  unfold ValidationState.GetDimension
  rw [findDef_withSign, withSign_dimension]

theorem getBitWidth_withSign (s : ValidationState) (b : Bool) (t : Nat) :
    (s.withSign b).GetBitWidth t = s.GetBitWidth t := by
  unfold ValidationState.GetBitWidth
  rw [findDef_withSign, withSign_bitWidth]

theorem getOperandTypeId_withSign (s : ValidationState) (b : Bool)
    (inst : Instr) (i : Nat) :
    GetOperandTypeId (s.withSign b) inst i = GetOperandTypeId s inst i := rfl

end WithSignLemmas

section MoreHelpers

theorem isBoolVector_eq_false_of_scalar {s : ValidationState} {t : Nat}
    (h : s.IsBoolScalarType t = true) : s.IsBoolVectorType t = false := by
  unfold ValidationState.IsBoolScalarType at h
  unfold ValidationState.IsBoolVectorType
  cases hd : s.findDef t <;> rw [hd] at h <;> simp_all

end MoreHelpers

section NonzeroLemmas

theorem anyAll_success_ne (s : ValidationState) (inst : Instr) (h0 : s.WF)
    (h : anyAllChecks s inst = .success) : GetOperandTypeId s inst 2 ≠ 0 := by
  rw [anyAllChecks_success_iff s inst h0] at h
  intro hz
  rw [hz, isBoolVector_zero h0] at h
  exact Bool.false_ne_true h.2

theorem classify_success_ne (s : ValidationState) (inst : Instr)
    (h : classifyChecks s inst = .success) : GetOperandTypeId s inst 2 ≠ 0 := by
  intro hz
  simp only [classifyChecks, hz] at h
  split_ifs at h <;> simp_all

theorem floatCompare_success_ne (s : ValidationState) (inst : Instr)
    (h0 : s.WF) (h : floatCompareChecks s inst = .success) :
    GetOperandTypeId s inst 2 ≠ 0 ∧ GetOperandTypeId s inst 3 ≠ 0 := by
  rw [floatCompareChecks_success_iff s inst h0] at h
  obtain ⟨-, hf, -, he⟩ := h
  have hne := ne_zero_of_float_kind h0 hf
  exact ⟨hne, he ▸ hne⟩

theorem logicalBin_success_ne (s : ValidationState) (inst : Instr)
    (h0 : s.WF) (h : logicalBinChecks s inst = .success) :
    GetOperandTypeId s inst 2 ≠ 0 ∧ GetOperandTypeId s inst 3 ≠ 0 := by
  simp only [logicalBinChecks] at h
  split_ifs at h with h1 h2
  · have hb : (s.IsBoolScalarType inst.type_id ||
        s.IsBoolVectorType inst.type_id) = true := by
      revert h1
      cases s.IsBoolScalarType inst.type_id <;>
        cases s.IsBoolVectorType inst.type_id <;> simp
    have hrt := ne_zero_of_bool_kind h0 hb
    have h2' : inst.type_id = GetOperandTypeId s inst 2 ∧
        inst.type_id = GetOperandTypeId s inst 3 := by
      revert h2
      by_cases e2 : inst.type_id = GetOperandTypeId s inst 2 <;>
        by_cases e3 : inst.type_id = GetOperandTypeId s inst 3 <;>
          simp [e2, e3]
    exact ⟨h2'.1 ▸ hrt, h2'.2 ▸ hrt⟩

theorem logicalNot_success_ne (s : ValidationState) (inst : Instr)
    (h0 : s.WF) (h : logicalNotChecks s inst = .success) :
    GetOperandTypeId s inst 2 ≠ 0 := by
  simp only [logicalNotChecks] at h
  split_ifs at h with h1 h2
  · have hb : (s.IsBoolScalarType inst.type_id ||
        s.IsBoolVectorType inst.type_id) = true := by
      revert h1
      cases s.IsBoolScalarType inst.type_id <;>
        cases s.IsBoolVectorType inst.type_id <;> simp
    have hrt := ne_zero_of_bool_kind h0 hb
    have he : inst.type_id = GetOperandTypeId s inst 2 := by
      revert h2
      by_cases e : inst.type_id = GetOperandTypeId s inst 2 <;> simp [e]
    exact he ▸ hrt

theorem select_success_ne (s : ValidationState) (inst : Instr)
    (h0 : s.WF) (h : selectChecks s inst = .success) :
    GetOperandTypeId s inst 2 ≠ 0 ∧ GetOperandTypeId s inst 3 ≠ 0 ∧
      GetOperandTypeId s inst 4 ≠ 0 := by
  have hrt : inst.type_id ≠ 0 := by
    intro hz
    simp only [selectChecks] at h
    rw [hz, show s.findDef 0 = .otherT from h0] at h
    exact absurd h (by simp)
  have hops : ∃ d, selectOperandChecks s inst d = .success := by
    simp only [selectChecks] at h
    cases hd : s.findDef inst.type_id
    case boolT => exact ⟨1, by rw [hd] at h; exact h⟩
    case intT w sg => exact ⟨1, by rw [hd] at h; exact h⟩
    case floatT w => exact ⟨1, by rw [hd] at h; exact h⟩
    case vecT c n => exact ⟨n, by rw [hd] at h; exact h⟩
    case ptrT a b =>
      rw [hd] at h
      split_ifs at h with hc
      exact ⟨1, h⟩
    case otherT =>
      rw [hd] at h
      exact absurd h (by simp)
  obtain ⟨d, hdsucc⟩ := hops
  rw [selectOperandChecks_success_iff s inst d h0] at hdsucc
  obtain ⟨hb, -, e3, e4⟩ := hdsucc
  exact ⟨ne_zero_of_bool_kind h0 hb, e3 ▸ hrt, e4 ▸ hrt⟩

theorem intCompare_success_ne (s : ValidationState) (inst : Instr)
    (h0 : s.WF) (h : intCompareChecks s inst = .success) :
    GetOperandTypeId s inst 2 ≠ 0 ∧ GetOperandTypeId s inst 3 ≠ 0 := by
  rw [intCompareChecks_success_iff s inst h0] at h
  exact ⟨ne_zero_of_int_kind h0 h.2.1, ne_zero_of_int_kind h0 h.2.2.2.1⟩

end NonzeroLemmas

section Claims

/-- Claim C1: for an `OpSelect` whose result type is a scalar, vector, or
pointer type (the pointer case subject to a variable-pointer capability
being enabled), the instruction is accepted if and only if the condition
operand's type is a scalar-or-vector boolean, the condition's lane count
equals the lane count implied by the result type (1 for a scalar or pointer
result, N for an N-lane vector result), and both value operands' type ids
are exactly the result type id. -/
theorem C1_select_accept_iff (s : ValidationState) (inst : Instr)
    (h0 : s.WF) (hop : inst.opcode = .OpSelect) (d : Nat)
    (hdim : selectResultDim (s.findDef inst.type_id) = some d)
    (hcap : (s.findDef inst.type_id).isPtr = true →
      (s.variable_pointers || s.variable_pointers_storage_buffer) = true) :
    LogicalsPass s inst = .success ↔
      (s.IsBoolScalarType (GetOperandTypeId s inst 2) ||
        s.IsBoolVectorType (GetOperandTypeId s inst 2)) = true ∧
      s.GetDimension (GetOperandTypeId s inst 2) = d ∧
      inst.type_id = GetOperandTypeId s inst 3 ∧
      inst.type_id = GetOperandTypeId s inst 4 := by
  rw [logicalsPass_select s inst hop]
  simp only [selectChecks]
  cases hdef : s.findDef inst.type_id
  case boolT =>
    rw [hdef] at hdim
    simp only [selectResultDim, Option.some.injEq] at hdim
    subst hdim
    exact selectOperandChecks_success_iff s inst 1 h0
  case intT w sg =>
    rw [hdef] at hdim
    simp only [selectResultDim, Option.some.injEq] at hdim
    subst hdim
    exact selectOperandChecks_success_iff s inst 1 h0
  case floatT w =>
    rw [hdef] at hdim
    simp only [selectResultDim, Option.some.injEq] at hdim
    subst hdim
    exact selectOperandChecks_success_iff s inst 1 h0
  case vecT c n =>
    rw [hdef] at hdim
    simp only [selectResultDim, Option.some.injEq] at hdim
    subst hdim
    exact selectOperandChecks_success_iff s inst n h0
  case ptrT a b =>
    rw [hdef] at hdim
    simp only [selectResultDim, Option.some.injEq] at hdim
    subst hdim
    have hc : (s.variable_pointers ||
        s.variable_pointers_storage_buffer) = true := by
      apply hcap
      rw [hdef]
      rfl
    rw [if_neg (by rw [not_and_not_eq_false hc]; simp)]
    exact selectOperandChecks_success_iff s inst 1 h0
  case otherT =>
    rw [hdef] at hdim
    simp [selectResultDim] at hdim

/-- Witness for C1 at a vector-typed `Select` accepted by the pass. -/
theorem C1_select_accept_iff_witness :
    LogicalsPass sampleState ⟨.OpSelect, 4, [4, 47, 2, 4, 4]⟩ = .success :=
  (C1_select_accept_iff sampleState ⟨.OpSelect, 4, [4, 47, 2, 4, 4]⟩
    sampleState_WF rfl 2 (by decide) (by decide)).mpr (by decide)

/-- Claim C2: for an `OpSelect` whose result type is a pointer type, if
neither variable-pointer capability is enabled the instruction is rejected
with the capability diagnostic whatever its operands are (the rejection
precedes every operand-type check); if one of the capabilities is enabled,
both value operands equal the pointer result type, and the condition is a
scalar boolean, the instruction is accepted. -/
theorem C2_select_pointer_capability (s : ValidationState) (inst : Instr)
    (h0 : s.WF) (hop : inst.opcode = .OpSelect) (st pe : Nat)
    (hdef : s.findDef inst.type_id = .ptrT st pe) :
    (s.variable_pointers = false →
      s.variable_pointers_storage_buffer = false →
      LogicalsPass s inst = .error .selectNeedsVarPtrCap) ∧
    ((s.variable_pointers || s.variable_pointers_storage_buffer) = true →
      s.IsBoolScalarType (GetOperandTypeId s inst 2) = true →
      GetOperandTypeId s inst 3 = inst.type_id →
      GetOperandTypeId s inst 4 = inst.type_id →
      LogicalsPass s inst = .success) := by
  rw [logicalsPass_select s inst hop]
  simp only [selectChecks]
  rw [hdef]
  constructor
  · intro hv hvs
    rw [hv, hvs]
    simp
  · intro hc hcond h3 h4
    rw [if_neg (by rw [not_and_not_eq_false hc]; simp)]
    rw [selectOperandChecks_success_iff s inst 1 h0]
    exact ⟨by simp [hcond], getDimension_of_boolScalar hcond,
      h3.symm, h4.symm⟩

/-- Witness for C2: the same pointer-typed `Select` is rejected with the
capability diagnostic without the capabilities and accepted with them. -/
theorem C2_select_pointer_capability_witness :
    LogicalsPass sampleStateNoCaps ⟨.OpSelect, 7, [7, 42, 1, 7, 7]⟩ =
      .error .selectNeedsVarPtrCap ∧
    LogicalsPass sampleState ⟨.OpSelect, 7, [7, 42, 1, 7, 7]⟩ = .success :=
  ⟨(C2_select_pointer_capability sampleStateNoCaps
      ⟨.OpSelect, 7, [7, 42, 1, 7, 7]⟩ sampleStateNoCaps_WF rfl 0 3
      (by decide)).1 rfl rfl,
   (C2_select_pointer_capability sampleState
      ⟨.OpSelect, 7, [7, 42, 1, 7, 7]⟩ sampleState_WF rfl 0 3
      (by decide)).2 (by decide) (by decide) rfl rfl⟩

/-- Claim C3: an integer comparison whose result type is a scalar-or-vector
boolean and whose operands are both scalar-or-vector integers with lane
counts equal to the result's is accepted if and only if the two operands'
component bit widths also match; when the widths differ it is rejected with
the bit-width diagnostic. -/
theorem C3_intCompare_bitWidth (s : ValidationState) (inst : Instr)
    (h0 : s.WF) (hop : isIntCompare inst.opcode = true)
    (hres : (s.IsBoolScalarType inst.type_id ||
      s.IsBoolVectorType inst.type_id) = true)
    (hleft : (s.IsIntScalarType (GetOperandTypeId s inst 2) ||
      s.IsIntVectorType (GetOperandTypeId s inst 2)) = true)
    (hright : (s.IsIntScalarType (GetOperandTypeId s inst 3) ||
      s.IsIntVectorType (GetOperandTypeId s inst 3)) = true)
    (hld : s.GetDimension inst.type_id =
      s.GetDimension (GetOperandTypeId s inst 2))
    (hrd : s.GetDimension inst.type_id =
      s.GetDimension (GetOperandTypeId s inst 3)) :
    (LogicalsPass s inst = .success ↔
      s.GetBitWidth (GetOperandTypeId s inst 2) =
        s.GetBitWidth (GetOperandTypeId s inst 3)) ∧
    (s.GetBitWidth (GetOperandTypeId s inst 2) ≠
        s.GetBitWidth (GetOperandTypeId s inst 3) →
      LogicalsPass s inst = .error .sameBitWidth) := by
  rw [logicalsPass_intCompare s inst hop]
  constructor
  · rw [intCompareChecks_success_iff s inst h0]
    have hlr : s.GetDimension (GetOperandTypeId s inst 2) =
        s.GetDimension (GetOperandTypeId s inst 3) := hld.symm.trans hrd
    simp [hres, hleft, hright, hld, hrd, hlr]
  · intro hbw
    simp only [intCompareChecks]
    simp only [intOperandCond h0]
    rw [if_neg (by rw [not_and_not_eq_false hres]; simp)]
    rw [if_neg (by rw [not_and_not_eq_false hleft]; simp)]
    rw [if_neg (by simp [hld])]
    rw [if_neg (by rw [not_and_not_eq_false hright]; simp)]
    rw [if_neg (by simp [hrd])]
    rw [if_pos (by simpa [bne_iff_ne] using hbw)]

/-- Witness for C3: comparing an 8-lane 16-bit operand with an 8-lane
32-bit operand is rejected for bit-width mismatch. -/
theorem C3_intCompare_bitWidth_witness :
    LogicalsPass sampleState ⟨.OpIEqual, 15, [15, 40, 9, 10]⟩ =
      .error .sameBitWidth :=
  (C3_intCompare_bitWidth sampleState ⟨.OpIEqual, 15, [15, 40, 9, 10]⟩
    sampleState_WF (by decide) (by decide) (by decide) (by decide)
    (by decide) (by decide)).2 (by decide)

/-- Claim C4: a floating comparison is accepted if and only if the result
type is a scalar-or-vector boolean, both operands are scalar-or-vector
float types of identical type id, and the lane counts of the result and the
operands are equal. -/
theorem C4_floatCompare_accept_iff (s : ValidationState) (inst : Instr)
    (h0 : s.WF) (hop : isFloatCompare inst.opcode = true) :
    LogicalsPass s inst = .success ↔
      (s.IsBoolScalarType inst.type_id ||
        s.IsBoolVectorType inst.type_id) = true ∧
      (s.IsFloatScalarType (GetOperandTypeId s inst 2) ||
        s.IsFloatVectorType (GetOperandTypeId s inst 2)) = true ∧
      (s.IsFloatScalarType (GetOperandTypeId s inst 3) ||
        s.IsFloatVectorType (GetOperandTypeId s inst 3)) = true ∧
      GetOperandTypeId s inst 2 = GetOperandTypeId s inst 3 ∧
      s.GetDimension inst.type_id =
        s.GetDimension (GetOperandTypeId s inst 2) ∧
      s.GetDimension inst.type_id =
        s.GetDimension (GetOperandTypeId s inst 3) := by
  rw [logicalsPass_floatCompare s inst hop,
    floatCompareChecks_success_iff s inst h0]
  constructor
  · rintro ⟨a, b, c, d⟩
    exact ⟨a, b, d ▸ b, d, c, d ▸ c⟩
  · rintro ⟨a, b, -, d, e, -⟩
    exact ⟨a, b, e, d⟩

/-- Witness for C4 at an accepted float comparison over 2-lane vectors. -/
theorem C4_floatCompare_accept_iff_witness :
    LogicalsPass sampleState ⟨.OpFOrdEqual, 2, [2, 41, 6, 6]⟩ = .success :=
  (C4_floatCompare_accept_iff sampleState ⟨.OpFOrdEqual, 2, [2, 41, 6, 6]⟩
    sampleState_WF (by decide)).mpr (by decide)

/-- Claim C5: a boolean reduction (`OpAny` / `OpAll`) is accepted if and
only if the result type is a scalar boolean and the operand's type is a
vector of booleans; an operand whose type is a scalar boolean is rejected
with the vector-bool diagnostic. -/
theorem C5_anyAll_accept_iff (s : ValidationState) (inst : Instr)
    (h0 : s.WF)
    (hop : inst.opcode = .OpAny ∨ inst.opcode = .OpAll) :
    (LogicalsPass s inst = .success ↔
      s.IsBoolScalarType inst.type_id = true ∧
      s.IsBoolVectorType (GetOperandTypeId s inst 2) = true) ∧
    (s.IsBoolScalarType inst.type_id = true →
      s.IsBoolScalarType (GetOperandTypeId s inst 2) = true →
      LogicalsPass s inst = .error .operandVectorBool) := by
  have hd : LogicalsPass s inst = anyAllChecks s inst := by
    rcases hop with h | h <;> simp [LogicalsPass, h]
  rw [hd]
  refine ⟨anyAllChecks_success_iff s inst h0, fun hrt hsc => ?_⟩
  have hbv := isBoolVector_eq_false_of_scalar hsc
  simp only [anyAllChecks]
  simp [hrt, hbv]

/-- Witness for C5: an accepted reduction over a bool vector, and the
rejection of a scalar-bool operand with the vector-bool diagnostic. -/
theorem C5_anyAll_accept_iff_witness :
    LogicalsPass sampleState ⟨.OpAny, 1, [1, 30, 2]⟩ = .success ∧
    LogicalsPass sampleState ⟨.OpAll, 1, [1, 31, 1]⟩ =
      .error .operandVectorBool :=
  ⟨((C5_anyAll_accept_iff sampleState ⟨.OpAny, 1, [1, 30, 2]⟩
      sampleState_WF (Or.inl rfl)).1).mpr (by decide),
   (C5_anyAll_accept_iff sampleState ⟨.OpAll, 1, [1, 31, 1]⟩
      sampleState_WF (Or.inr rfl)).2 (by decide) (by decide)⟩

/-- Claim C6 counterexample: an `OpIEqual` whose result type is a 2-lane
bool vector, whose first operand is a 3-lane 32-bit integer vector (integer
kind, mismatched lane count) and whose second operand is a float scalar
(not an integer) is rejected with the lane-count diagnostic, not with the
operand-kind diagnostic the claim predicts. -/
theorem C6_counterexample :
    LogicalsPass sampleState ⟨.OpIEqual, 2, [2, 44, 12, 5]⟩ =
      .error .dimResultOperands ∧
    ¬ LogicalsPass sampleState ⟨.OpIEqual, 2, [2, 44, 12, 5]⟩ =
      .error .operandsInt := by
  decide

/-- Claim C6 (amended): integer-comparison checks run result-type first,
then the first operand's kind, then the first operand's lane count, then
the second operand's kind and lane count, then the bit width; hence an
instruction whose first operand is an integer with a lane count that
disagrees with the result's is rejected with the lane-count diagnostic
whatever the second operand is — in particular also when the second
operand is not a scalar-or-vector integer. -/
theorem C6_intCompare_order (s : ValidationState) (inst : Instr)
    (h0 : s.WF) (hop : isIntCompare inst.opcode = true)
    (hres : (s.IsBoolScalarType inst.type_id ||
      s.IsBoolVectorType inst.type_id) = true)
    (hleft : (s.IsIntScalarType (GetOperandTypeId s inst 2) ||
      s.IsIntVectorType (GetOperandTypeId s inst 2)) = true)
    (hld : s.GetDimension inst.type_id ≠
      s.GetDimension (GetOperandTypeId s inst 2)) :
    LogicalsPass s inst = .error .dimResultOperands := by
  rw [logicalsPass_intCompare s inst hop]
  simp only [intCompareChecks]
  simp only [intOperandCond h0]
  rw [if_neg (by rw [not_and_not_eq_false hres]; simp)]
  rw [if_neg (by rw [not_and_not_eq_false hleft]; simp)]
  rw [if_pos (by simpa [bne_iff_ne] using hld)]

/-- Witness for the amended C6 at the counterexample's instruction. -/
theorem C6_intCompare_order_witness :
    LogicalsPass sampleState ⟨.OpIEqual, 2, [2, 44, 12, 5]⟩ =
      .error .dimResultOperands :=
  C6_intCompare_order sampleState ⟨.OpIEqual, 2, [2, 44, 12, 5]⟩
    sampleState_WF (by decide) (by decide) (by decide) (by decide)

/-- Claim C7: for a handled opcode, if the type id resolved for a required
operand is the sentinel 0, the instruction is rejected (the pass never
accepts it): the sentinel is caught either by the operand's explicit zero
check or by an equality check against the necessarily non-zero result
type. -/
theorem C7_sentinel_rejected (s : ValidationState) (inst : Instr)
    (h0 : s.WF) (i : Nat) (hi : i ∈ requiredOperands inst.opcode)
    (hz : GetOperandTypeId s inst i = 0) :
    LogicalsPass s inst ≠ .success := by
  intro hsucc
  cases hop : inst.opcode <;> rw [hop] at hi <;>
    simp only [requiredOperands, List.mem_cons,
      List.not_mem_nil, or_false] at hi <;>
    simp only [LogicalsPass, hop] at hsucc <;>
    first
      | (obtain rfl := hi
         first
           | exact anyAll_success_ne s inst h0 hsucc hz
           | exact classify_success_ne s inst hsucc hz
           | exact logicalNot_success_ne s inst h0 hsucc hz)
      | (rcases hi with rfl | rfl <;>
         first
           | exact (floatCompare_success_ne s inst h0 hsucc).1 hz
           | exact (floatCompare_success_ne s inst h0 hsucc).2 hz
           | exact (logicalBin_success_ne s inst h0 hsucc).1 hz
           | exact (logicalBin_success_ne s inst h0 hsucc).2 hz
           | exact (intCompare_success_ne s inst h0 hsucc).1 hz
           | exact (intCompare_success_ne s inst h0 hsucc).2 hz)
      | (rcases hi with rfl | rfl | rfl <;>
         first
           | exact (select_success_ne s inst h0 hsucc).1 hz
           | exact (select_success_ne s inst h0 hsucc).2.1 hz
           | exact (select_success_ne s inst h0 hsucc).2.2 hz)

/-- Witness for C7: an `OpAny` whose operand resolves to the sentinel type
id 0 is not accepted. -/
theorem C7_sentinel_rejected_witness :
    LogicalsPass sampleState ⟨.OpAny, 1, [1, 45, 0]⟩ ≠ .success :=
  C7_sentinel_rejected sampleState ⟨.OpAny, 1, [1, 45, 0]⟩
    sampleState_WF 2 (by decide) rfl

/-- Claim C8: any opcode outside the handled families is accepted
unconditionally by the pass. -/
theorem C8_unhandled_accepted (s : ValidationState) (inst : Instr)
    (h : handledOp inst.opcode = false) :
    LogicalsPass s inst = .success := by
  cases hop : inst.opcode <;>
    first
      | (exfalso; rw [hop] at h; exact absurd h (by decide))
      | simp [LogicalsPass, hop]

/-- Witness for C8 at an arithmetic opcode this pass does not handle. -/
theorem C8_unhandled_accepted_witness :
    LogicalsPass sampleState ⟨.OpIAdd, 0, []⟩ = .success :=
  C8_unhandled_accepted sampleState ⟨.OpIAdd, 0, []⟩ (by decide)

/-- Claim C9: the pass is a deterministic, stateless function of the
instruction and the type store — validating the same instruction at two
positions of a stream against an unchanged store yields the same verdict
at both positions. -/
theorem C9_deterministic (s : ValidationState) (inst : Instr) :
    (runPass s [inst, inst]).getD 0 .success =
      (runPass s [inst, inst]).getD 1 .success ∧
    runPass s [inst, inst] = [LogicalsPass s inst, LogicalsPass s inst] := by
  simp [runPass]

/-- Claim C10: integer comparisons never check signedness — normalizing
every integer type's signedness flag in the store (in either direction)
does not change the verdict of any integer-comparison instruction. -/
theorem C10_sign_insensitive (s : ValidationState) (inst : Instr) (b : Bool)
    (hop : isIntCompare inst.opcode = true) :
    LogicalsPass (s.withSign b) inst = LogicalsPass s inst := by
  rw [logicalsPass_intCompare (s.withSign b) inst hop,
    logicalsPass_intCompare s inst hop]
  simp only [intCompareChecks, getOperandTypeId_withSign,
    isBoolScalar_withSign, isBoolVector_withSign, isIntScalar_withSign,
    isIntVector_withSign, getDimension_withSign, getBitWidth_withSign]

/-- Witness for C10: a signed comparison of a signed 32-bit scalar against
an unsigned 32-bit scalar has the same verdict after normalizing
signedness, and that verdict is acceptance. -/
theorem C10_sign_insensitive_witness :
    LogicalsPass (sampleState.withSign false)
        ⟨.OpSGreaterThan, 1, [1, 46, 3, 14]⟩ =
      LogicalsPass sampleState ⟨.OpSGreaterThan, 1, [1, 46, 3, 14]⟩ ∧
    LogicalsPass sampleState ⟨.OpSGreaterThan, 1, [1, 46, 3, 14]⟩ =
      .success :=
  ⟨C10_sign_insensitive sampleState ⟨.OpSGreaterThan, 1, [1, 46, 3, 14]⟩
      false (by decide),
   by decide⟩

end Claims

end SpirvLogicals
